import Mathlib

/-!
Shallow embedding of `src/streamlit_app.py` (a Streamlit weather map app)
and proofs of the specification claims about it.

Python floats are modelled as rationals (all computations the claims touch
are exact), Python `int()` as truncation toward zero, timestamps as natural
numbers (the value produced by `pd.to_datetime`; the claims only require a
type with exact value equality), and the HTTP layer as an oracle mapping a
city name to either an exception message or the parsed pair of `hourly`
arrays.
-/

namespace StApp

/-- Python `int()` applied to a rational: truncation toward zero. -/
def int_trunc (q : ℚ) : ℤ := if 0 ≤ q then ⌊q⌋ else ⌈q⌉

/-- Line 25: `t = np.clip((temp + 5) / 40, 0, 1)`. -/
def norm_t (temp : ℚ) : ℚ := min (max ((temp + 5) / 40) 0) 1

/-- Line 26: `r = int(255 * t)`. -/
def red_channel (temp : ℚ) : ℤ := int_trunc (255 * norm_t temp)

/-- The exact (pre-truncation) green value `255 * (1 - abs(t - 0.5) * 2)` of line 27. -/
def green_raw (temp : ℚ) : ℚ := 255 * (1 - |norm_t temp - 1/2| * 2)

/-- Line 27: `g = int(255 * (1 - abs(t - 0.5) * 2))`. -/
def green_channel (temp : ℚ) : ℤ := int_trunc (green_raw temp)

/-- Line 28: `b = int(255 * (1 - t))`. -/
def blue_channel (temp : ℚ) : ℤ := int_trunc (255 * (1 - norm_t temp))

/-- Lines 23-29: `temp_to_color` returns `[r, g, b, 180]`. -/
def temp_to_color (temp : ℚ) : List ℤ :=
  [red_channel temp, green_channel temp, blue_channel temp, 180]

/-- Line 72: `df['elevation'] = df['Temperature'] * 3000`, per record. -/
def elevation (temp : ℚ) : ℚ := temp * 3000

-- Basic facts about the normalization.

lemma norm_t_nonneg (temp : ℚ) : 0 ≤ norm_t temp :=
  le_min (le_max_right _ 0) zero_le_one

lemma norm_t_le_one (temp : ℚ) : norm_t temp ≤ 1 := min_le_right _ 1

lemma norm_t_mono {a b : ℚ} (h : a ≤ b) : norm_t a ≤ norm_t b := by
  unfold norm_t
  have hdiv : (a + 5) / 40 ≤ (b + 5) / 40 :=
    div_le_div_of_nonneg_right (by linarith) (by norm_num : (0:ℚ) ≤ 40)
  exact min_le_min (max_le_max hdiv le_rfl) le_rfl

lemma norm_t_of_le_neg_five {temp : ℚ} (h : temp ≤ -5) : norm_t temp = 0 := by
  unfold norm_t
  have hx : (temp + 5) / 40 ≤ 0 := by
    apply div_nonpos_of_nonpos_of_nonneg <;> linarith
  rw [max_eq_right hx]
  norm_num

lemma norm_t_of_ge_thirtyfive {temp : ℚ} (h : 35 ≤ temp) : norm_t temp = 1 := by
  unfold norm_t
  have hx : (1:ℚ) ≤ (temp + 5) / 40 := by
    rw [le_div_iff₀ (by norm_num : (0:ℚ) < 40)]
    linarith
  rw [max_eq_left (by linarith), min_eq_right hx]

lemma norm_t_of_mem {temp : ℚ} (h1 : -5 ≤ temp) (h2 : temp ≤ 35) :
    norm_t temp = (temp + 5) / 40 := by
  unfold norm_t
  have h40 : (0:ℚ) < 40 := by norm_num
  have hx0 : (0:ℚ) ≤ (temp + 5) / 40 := div_nonneg (by linarith) (by norm_num)
  have hx1 : (temp + 5) / 40 ≤ 1 := by
    rw [div_le_one h40]; linarith
  rw [max_eq_left hx0, min_eq_left hx1]

lemma int_trunc_of_nonneg {q : ℚ} (h : 0 ≤ q) : int_trunc q = ⌊q⌋ := if_pos h

lemma int_trunc_mono_of_nonneg {a b : ℚ} (ha : 0 ≤ a) (hab : a ≤ b) :
    int_trunc a ≤ int_trunc b := by
  rw [int_trunc_of_nonneg ha, int_trunc_of_nonneg (ha.trans hab)]
  exact Int.floor_le_floor hab

lemma int_trunc_le_255 {q : ℚ} (h : q ≤ 255) : int_trunc q ≤ 255 := by
  unfold int_trunc
  split
  · calc ⌊q⌋ ≤ ⌊(255:ℚ)⌋ := Int.floor_le_floor h
    _ = 255 := by norm_num [Int.floor_eq_iff]
  · have hq : q ≤ 0 := le_of_not_le (by assumption)
    have : ⌈q⌉ ≤ (0:ℤ) := Int.ceil_le.mpr (by exact_mod_cast hq)
    omega

end StApp

namespace StApp

/-- C1: for every `temp ≤ -5`, `temp_to_color temp` is exactly `[0, 0, 255, 180]`,
and for every `temp ≥ 35` it is exactly `[255, 0, 0, 180]`: outside the nominal
range `[-5, 35]` the color saturates at the boundary instead of extrapolating. -/
theorem C1_temp_to_color_saturates :
    (∀ temp : ℚ, temp ≤ -5 → temp_to_color temp = [0, 0, 255, 180]) ∧
    (∀ temp : ℚ, 35 ≤ temp → temp_to_color temp = [255, 0, 0, 180]) := by
  constructor
  · intro temp h
    have ht := norm_t_of_le_neg_five h
    have hg : green_raw temp = 0 := by
      unfold green_raw
      rw [ht, zero_sub, abs_neg, abs_of_pos (by norm_num : (0:ℚ) < 1/2)]
      norm_num
    unfold temp_to_color red_channel green_channel blue_channel int_trunc
    rw [ht, hg]
    norm_num [Int.floor_eq_iff]
  · intro temp h
    have ht := norm_t_of_ge_thirtyfive h
    have hg : green_raw temp = 0 := by
      unfold green_raw
      rw [ht, show (1:ℚ) - 1/2 = 1/2 by norm_num,
        abs_of_pos (by norm_num : (0:ℚ) < 1/2)]
      norm_num
    unfold temp_to_color red_channel green_channel blue_channel int_trunc
    rw [ht, hg]
    norm_num [Int.floor_eq_iff]

/-- Witness for C1 at the concrete inputs `-7` and `40`. -/
theorem C1_witness :
    ((-7:ℚ) ≤ -5 ∧ temp_to_color (-7) = [0, 0, 255, 180]) ∧
    ((35:ℚ) ≤ 40 ∧ temp_to_color 40 = [255, 0, 0, 180]) :=
  ⟨⟨by norm_num, C1_temp_to_color_saturates.1 (-7) (by norm_num)⟩,
   ⟨by norm_num, C1_temp_to_color_saturates.2 40 (by norm_num)⟩⟩

/-- C4: the elevation mapping is exactly `temp * 3000` for every temperature,
including negatives (`elevation (-2) = -6000`); it is total (a Lean function),
additive and homogeneous (linear), and negative inputs give negative, unclamped
elevations. -/
theorem C4_elevation_linear :
    (∀ temp : ℚ, elevation temp = temp * 3000) ∧
    elevation (-2) = -6000 ∧
    (∀ a b : ℚ, elevation (a + b) = elevation a + elevation b) ∧
    (∀ c x : ℚ, elevation (c * x) = c * elevation x) ∧
    (∀ temp : ℚ, temp < 0 → elevation temp < 0) := by
  refine ⟨fun _ => rfl, by norm_num [elevation], fun a b => by unfold elevation; ring,
    fun c x => by unfold elevation; ring, fun temp h => ?_⟩
  have : temp * 3000 < 0 := mul_neg_of_neg_of_pos h (by norm_num)
  simpa [elevation] using this

/-- Witness for C4 at the concrete input `-1`. -/
theorem C4_witness : elevation (-2) = -6000 ∧ elevation (-1) < 0 :=
  ⟨C4_elevation_linear.2.1, C4_elevation_linear.2.2.2.2 (-1) (by norm_num)⟩

/-- C7: the red channel of `temp_to_color` is non-decreasing and the blue
channel non-increasing in the temperature, over the whole input domain. -/
theorem C7_channel_monotonicity :
    ∀ t1 t2 : ℚ, t1 ≤ t2 →
      red_channel t1 ≤ red_channel t2 ∧ blue_channel t2 ≤ blue_channel t1 := by
  intro t1 t2 h
  constructor
  · exact int_trunc_mono_of_nonneg
      (mul_nonneg (by norm_num) (norm_t_nonneg t1))
      (mul_le_mul_of_nonneg_left (norm_t_mono h) (by norm_num))
  · have h1 : (0:ℚ) ≤ 255 * (1 - norm_t t2) :=
      mul_nonneg (by norm_num) (by linarith [norm_t_le_one t2])
    exact int_trunc_mono_of_nonneg h1
      (mul_le_mul_of_nonneg_left (by linarith [norm_t_mono h]) (by norm_num))

/-- Witness for C7 at the concrete inputs `0 ≤ 10`. -/
theorem C7_witness : red_channel 0 ≤ red_channel 10 ∧ blue_channel 10 ≤ blue_channel 0 :=
  C7_channel_monotonicity 0 10 (by norm_num)

/-- C8: at `temp = 15` (the midpoint of the nominal range) the color is exactly
`[127, 255, 127, 180]` — green at its peak 255, red and blue symmetric at 127;
the green channel never exceeds 255, and the raw green value falls linearly
from the midpoint to 0 at both extremes of the normalized range. -/
theorem C8_midpoint_green_peak :
    temp_to_color 15 = [127, 255, 127, 180] ∧
    (∀ temp : ℚ, green_channel temp ≤ 255) ∧
    (∀ temp : ℚ, -5 ≤ temp → temp ≤ 15 → green_raw temp = 51 * (temp + 5) / 4) ∧
    (∀ temp : ℚ, 15 ≤ temp → temp ≤ 35 → green_raw temp = 51 * (35 - temp) / 4) ∧
    green_raw (-5) = 0 ∧ green_raw 35 = 0 := by
  have hlo : ∀ temp : ℚ, -5 ≤ temp → temp ≤ 15 → green_raw temp = 51 * (temp + 5) / 4 := by
    intro temp h1 h2
    unfold green_raw
    rw [norm_t_of_mem h1 (by linarith)]
    have hx : (temp + 5) / 40 - 1/2 ≤ 0 := by
      rw [sub_nonpos, div_le_iff₀ (by norm_num : (0:ℚ) < 40)]
      linarith
    rw [abs_of_nonpos hx]
    field_simp
    ring
  have hhi : ∀ temp : ℚ, 15 ≤ temp → temp ≤ 35 → green_raw temp = 51 * (35 - temp) / 4 := by
    intro temp h1 h2
    unfold green_raw
    rw [norm_t_of_mem (by linarith) h2]
    have hx : (0:ℚ) ≤ (temp + 5) / 40 - 1/2 := by
      rw [sub_nonneg, le_div_iff₀ (by norm_num : (0:ℚ) < 40)]
      linarith
    rw [abs_of_nonneg hx]
    field_simp
    ring
  refine ⟨?_, ?_, hlo, hhi, ?_, ?_⟩
  · have h15 : green_raw 15 = 255 := by
      rw [hlo 15 (by norm_num) le_rfl]; norm_num
    unfold temp_to_color red_channel green_channel blue_channel int_trunc
    rw [h15, norm_t_of_mem (by norm_num) (by norm_num)]
    norm_num [Int.floor_eq_iff]
  · intro temp
    apply int_trunc_le_255
    unfold green_raw
    nlinarith [abs_nonneg (norm_t temp - 1/2)]
  · rw [hlo (-5) le_rfl (by norm_num)]; norm_num
  · rw [hhi 35 (by norm_num) le_rfl]; norm_num

/-- Witness for C8 at the concrete inputs `0` and `25` for the conditional parts. -/
theorem C8_witness :
    green_raw 0 = 255 * 1/4 ∧ green_raw 25 = 255 / 2 := by
  constructor
  · rw [C8_midpoint_green_peak.2.2.1 0 (by norm_num) (by norm_num)]; norm_num
  · rw [C8_midpoint_green_peak.2.2.2.1 25 (by norm_num) (by norm_num)]; norm_num

end StApp

namespace StApp

/-- One record appended at lines 53-60: a dict with keys
`City`, `lat`, `lon`, `time` (the `pd.to_datetime` value, modelled as ℕ) and
`Temperature`. -/
structure Sample where
  City : String
  lat : ℚ
  lon : ℚ
  time : ℕ
  Temperature : ℚ
deriving DecidableEq, Repr

/-- One entry of the `kyushu_capitals` dict (lines 12-20): a city name with
its fixed coordinates. -/
structure Loc where
  name : String
  lat : ℚ
  lon : ℚ
deriving DecidableEq, Repr

/-- Lines 12-20: the seven statically configured Kyushu capitals, in
declaration (= iteration) order. -/
def kyushu_capitals : List Loc :=
  [⟨"Fukuoka", 33.5904, 130.4017⟩,
   ⟨"Saga", 33.2494, 130.2974⟩,
   ⟨"Nagasaki", 32.7450, 129.8739⟩,
   ⟨"Kumamoto", 32.7900, 130.7420⟩,
   ⟨"Oita", 33.2381, 131.6119⟩,
   ⟨"Miyazaki", 31.9110, 131.4240⟩,
   ⟨"Kagoshima", 31.5600, 130.5580⟩]

/-- The observable outcome of lines 46-51 for one location: either some
exception was raised (network error, non-2xx status via `raise_for_status`,
malformed JSON body when reading `data['hourly'][...]`), carrying its message,
or the two parsed `hourly` arrays `time` and `temperature_2m`. -/
inductive FetchResult where
  | failure (msg : String)
  | success (times : List ℕ) (temps : List ℚ)
deriving DecidableEq, Repr

/-- Lines 53-60: the samples one location contributes — `zip(times, temps)`
rows on success, nothing when the `try` body raised. -/
def locSamples (l : Loc) : FetchResult → List Sample
  | .failure _ => []
  | .success ts tl => (ts.zip tl).map fun p => ⟨l.name, l.lat, l.lon, p.1, p.2⟩

/-- Lines 62-63: the `st.error` warnings one location contributes —
`f"Error fetching {city}: {e}"` on failure, nothing on success. -/
def locWarnings (l : Loc) : FetchResult → List String
  | .failure msg => ["Error fetching " ++ l.name ++ ": " ++ msg]
  | .success _ _ => []

/-- Lines 33-65: the loop of `fetch_weather_data` over a location list,
parametrized by the HTTP-layer oracle `fetch` (keyed by city name, as the
loop issues one request per city). Returns the concatenated `weather_info`
list and the list of emitted `st.error` warnings. -/
def fetch_weather_data_over (locs : List Loc) (fetch : String → FetchResult) :
    List Sample × List String :=
  (locs.flatMap fun l => locSamples l (fetch l.name),
   locs.flatMap fun l => locWarnings l (fetch l.name))

/-- Lines 33-65: `fetch_weather_data`, iterating over the 7 configured
capitals. -/
def fetch_weather_data (fetch : String → FetchResult) :
    List Sample × List String :=
  fetch_weather_data_over kyushu_capitals fetch

/-- A row of `df` after lines 72-73 added the `elevation` and `color`
columns. -/
structure RowFull where
  City : String
  lat : ℚ
  lon : ℚ
  time : ℕ
  Temperature : ℚ
  elevation : ℚ
  color : List ℤ
deriving DecidableEq, Repr

/-- Lines 72-73: `df['elevation'] = df['Temperature'] * 3000` and
`df['color'] = df['Temperature'].apply(temp_to_color)`. `pd.DataFrame([])`
(the value of `fetch_weather_data` when every location failed) has no
columns at all, so the column read `df['Temperature']` raises `KeyError`
there; on a nonempty frame both derived columns are computed row-wise. -/
def addDerived (df : List Sample) : Except String (List RowFull) :=
  if df.isEmpty then .error "KeyError: Temperature"
  else .ok (df.map fun s =>
    ⟨s.City, s.lat, s.lon, s.time, s.Temperature, elevation s.Temperature,
     temp_to_color s.Temperature⟩)

/-- Line 89: `df_selected = df[df['time'] == selected_time]` — the exact-match
boolean-mask filter. -/
def df_selected (df : List RowFull) (selected_time : ℕ) : List RowFull :=
  df.filter fun r => r.time == selected_time

/-- Lines 68-89: the module-level pipeline downstream of `fetch_weather_data`:
derive the `elevation`/`color` columns, build the time slider over
`df['time'].min() .. df['time'].max()` (on an empty column `min()` is not a
valid slider bound and `st.slider` fails), obtain the user's selection —
modelled by `choose`, which the slider constrains to the min/max range — and
filter `df` to the selected time. -/
def render_pipeline (df : List Sample) (choose : ℕ → ℕ → ℕ) :
    Except String (List RowFull) := do
  let full ← addDerived df
  let times := full.map (·.time)
  let tmin ← match times.min? with
    | some m => Except.ok m
    | none => Except.error "slider: empty time range"
  let tmax ← match times.max? with
    | some m => Except.ok m
    | none => Except.error "slider: empty time range"
  Except.ok (df_selected full (choose tmin tmax))

end StApp

namespace StApp

/-- C3: time selection is an exact-match filter — a row is in `df_selected`
iff it is in `df` and its timestamp equals the selected time under exact
value equality, and a selected time matching no row yields `[]` silently
(the filter is a total function, so no error is raised). -/
theorem C3_exact_match_filter :
    (∀ (df : List RowFull) (t : ℕ) (s : RowFull),
        s ∈ df_selected df t ↔ s ∈ df ∧ s.time = t) ∧
    (∀ (df : List RowFull) (t : ℕ),
        (∀ s ∈ df, s.time ≠ t) → df_selected df t = []) := by
  constructor
  · intro df t s
    simp [df_selected, List.mem_filter]
  · intro df t h
    exact List.filter_eq_nil_iff.mpr fun s hs => by simpa using h s hs

/-- Witness for C3 on a one-row table: selecting the present time 5 keeps the
row, selecting the absent time 7 yields the empty table. -/
theorem C3_witness :
    ((⟨"A", 0, 0, 5, 10, 30000, [0, 0, 0, 180]⟩ : RowFull) ∈
        df_selected [⟨"A", 0, 0, 5, 10, 30000, [0, 0, 0, 180]⟩] 5) ∧
    df_selected [(⟨"A", 0, 0, 5, 10, 30000, [0, 0, 0, 180]⟩ : RowFull)] 7 = [] := by
  constructor
  · exact (C3_exact_match_filter.1 _ 5 _).mpr ⟨List.mem_singleton_self _, rfl⟩
  · refine C3_exact_match_filter.2 _ 7 ?_
    intro s hs
    rw [List.mem_singleton] at hs
    subst hs
    decide

/-- C10: every sample produced by `fetch_weather_data` carries the name of one
of the 7 configured locations together with exactly that location's configured
coordinates, whatever the API responses contain. -/
theorem C10_coordinate_passthrough :
    ∀ (fetch : String → FetchResult) (s : Sample),
      s ∈ (fetch_weather_data fetch).1 →
      ∃ l ∈ kyushu_capitals, s.City = l.name ∧ s.lat = l.lat ∧ s.lon = l.lon := by
  intro fetch s hs
  simp only [fetch_weather_data, fetch_weather_data_over, List.mem_flatMap] at hs
  obtain ⟨l, hl, hsl⟩ := hs
  refine ⟨l, hl, ?_⟩
  cases hres : fetch l.name with
  | failure m => rw [hres] at hsl; simp [locSamples] at hsl
  | success ts tl =>
    rw [hres] at hsl
    simp only [locSamples, List.mem_map] at hsl
    obtain ⟨p, _, rfl⟩ := hsl
    exact ⟨rfl, rfl, rfl⟩

/-- Witness for C10: a concrete all-success oracle, checked on the first
produced sample. -/
theorem C10_witness :
    ∃ l ∈ kyushu_capitals,
      (⟨"Fukuoka", 33.5904, 130.4017, 0, 10⟩ : Sample).City = l.name ∧
      (⟨"Fukuoka", 33.5904, 130.4017, 0, 10⟩ : Sample).lat = l.lat ∧
      (⟨"Fukuoka", 33.5904, 130.4017, 0, 10⟩ : Sample).lon = l.lon :=
  C10_coordinate_passthrough (fun _ => .success [0] [10]) _
    (by simp [fetch_weather_data, fetch_weather_data_over, kyushu_capitals,
      locSamples])

/-- C2 counterexample: when every location's fetch fails, the Dataset is empty
and the downstream pipeline does NOT complete — the very first derived-column
step `df['Temperature'] * 3000` raises `KeyError` on the column-less empty
DataFrame, so the claim fails at this input. -/
theorem C2_counterexample :
    (fetch_weather_data fun _ => .failure "boom").1 = [] ∧
    render_pipeline (fetch_weather_data fun _ => .failure "boom").1 (fun a _ => a)
      = .error "KeyError: Temperature" :=
  ⟨rfl, rfl⟩

/-- C2 amended: per-location fetch failures never abort the retrieval (it is a
total function returning a Dataset and warnings), and whenever the Dataset is
nonempty — i.e. at least one location produced at least one sample — every
downstream step (derived columns, slider over min/max, timestamp filter)
completes without error, for every slider choice. When the Dataset is empty
the pipeline instead fails at the first column access. -/
theorem C2_amended_nonempty_no_crash :
    ∀ (df : List Sample) (choose : ℕ → ℕ → ℕ), df ≠ [] →
      ∃ out, render_pipeline df choose = .ok out := by
  intro df choose hne
  obtain ⟨s, rest, rfl⟩ := List.exists_cons_of_ne_nil hne
  exact ⟨_, rfl⟩

/-- Witness for C2's amended statement on a one-sample Dataset. -/
theorem C2_amended_witness :
    ∃ out, render_pipeline [(⟨"A", 0, 0, 0, 10⟩ : Sample)] (fun a _ => a) = .ok out :=
  C2_amended_nonempty_no_crash _ (fun a _ => a) (List.cons_ne_nil _ _)

end StApp

namespace StApp

lemma locSamples_City {l : Loc} {r : FetchResult} {s : Sample}
    (h : s ∈ locSamples l r) : s.City = l.name := by
  cases r with
  | failure m => simp [locSamples] at h
  | success ts tl =>
    simp only [locSamples, List.mem_map] at h
    obtain ⟨p, _, rfl⟩ := h
    rfl

lemma samples_City_mem {locs : List Loc} {fetch : String → FetchResult} {s : Sample}
    (h : s ∈ (fetch_weather_data_over locs fetch).1) : s.City ∈ locs.map Loc.name := by
  simp only [fetch_weather_data_over, List.mem_flatMap] at h
  obtain ⟨l, hl, hs⟩ := h
  rw [locSamples_City hs]
  exact List.mem_map_of_mem _ hl

lemma locSamples_filter_self (l : Loc) (r : FetchResult) :
    (locSamples l r).filter (fun s => s.City == l.name) = locSamples l r :=
  List.filter_eq_self.mpr fun s hs => by
    rw [locSamples_City hs]
    exact beq_self_eq_true _

lemma locSamples_filter_ne (l : Loc) (r : FetchResult) {c : String} (hc : l.name ≠ c) :
    (locSamples l r).filter (fun s => s.City == c) = [] :=
  List.filter_eq_nil_iff.mpr fun s hs => by
    rw [locSamples_City hs]
    simp [hc]

lemma filter_City_eq_block (fetch : String → FetchResult) (l : Loc) (locs : List Loc)
    (hnd : (locs.map Loc.name).Nodup) (hl : l ∈ locs) :
    ((fetch_weather_data_over locs fetch).1.filter fun s => s.City == l.name)
      = locSamples l (fetch l.name) := by
  induction locs with
  | nil => cases hl
  | cons a as ih =>
    rw [List.map_cons, List.nodup_cons] at hnd
    obtain ⟨hni, hnd'⟩ := hnd
    simp only [fetch_weather_data_over, List.flatMap_cons, List.filter_append]
    rcases List.mem_cons.mp hl with rfl | hl'
    · have hrest : ((as.flatMap fun x => locSamples x (fetch x.name)).filter
          fun s => s.City == l.name) = [] := by
        apply List.filter_eq_nil_iff.mpr
        intro s hs hbeq
        rw [beq_iff_eq] at hbeq
        have hs' : s ∈ (fetch_weather_data_over as fetch).1 := hs
        have hmem : s.City ∈ as.map Loc.name := samples_City_mem hs'
        rw [hbeq] at hmem
        exact hni hmem
      rw [locSamples_filter_self, hrest, List.append_nil]
    · have hna : a.name ≠ l.name := fun he => hni (he ▸ List.mem_map_of_mem Loc.name hl')
      rw [locSamples_filter_ne a _ hna, List.nil_append]
      simpa [fetch_weather_data_over] using ih hnd' hl'

/-- C9: when the two `hourly` arrays have different lengths, the code neither
raises nor rejects the response (the loop body is a total zip): the samples
contributed for that location are exactly the positional zip of the two
arrays, hence `min` of the two lengths many — the tail of the longer array is
silently dropped. -/
theorem C9_mismatched_arrays_zip :
    ∀ (fetch : String → FetchResult) (l : Loc) (ts : List ℕ) (tl : List ℚ),
      l ∈ kyushu_capitals →
      fetch l.name = .success ts tl →
      ((fetch_weather_data fetch).1.filter fun s => s.City == l.name)
          = ((ts.zip tl).map fun p => ⟨l.name, l.lat, l.lon, p.1, p.2⟩) ∧
      ((fetch_weather_data fetch).1.filter fun s => s.City == l.name).length
          = min ts.length tl.length := by
  intro fetch l ts tl hl hf
  have hnd : (kyushu_capitals.map Loc.name).Nodup := by decide
  have h1 := filter_City_eq_block fetch l kyushu_capitals hnd hl
  rw [hf] at h1
  rw [fetch_weather_data]
  refine ⟨h1, ?_⟩
  rw [h1]
  simp [locSamples, List.length_zip]

/-- Witness for C9: a response with 3 times but only 2 temperatures yields
exactly the 2 zipped samples for Fukuoka. -/
theorem C9_witness :
    ((fetch_weather_data fun _ => .success [0, 1, 2] [10, 11]).1.filter
        fun s => s.City == "Fukuoka")
      = ((([0, 1, 2] : List ℕ).zip ([10, 11] : List ℚ)).map
          fun p => ⟨"Fukuoka", 33.5904, 130.4017, p.1, p.2⟩) ∧
    ((fetch_weather_data fun _ => .success [0, 1, 2] [10, 11]).1.filter
        fun s => s.City == "Fukuoka").length = min 3 2 := by
  have h := C9_mismatched_arrays_zip (fun _ => .success [0, 1, 2] [10, 11])
    ⟨"Fukuoka", 33.5904, 130.4017⟩ [0, 1, 2] [10, 11]
    (List.mem_cons_self _ _) rfl
  exact ⟨h.1, h.2⟩

end StApp

namespace StApp

lemma warnings_of_single_failure (fetch : String → FetchResult) (failCity msg : String) :
    ∀ locs : List Loc, (locs.map Loc.name).Nodup →
      failCity ∈ locs.map Loc.name →
      fetch failCity = .failure msg →
      (∀ l ∈ locs, l.name ≠ failCity → ∃ ts tl, fetch l.name = .success ts tl) →
      (fetch_weather_data_over locs fetch).2
        = ["Error fetching " ++ failCity ++ ": " ++ msg] := by
  intro locs
  induction locs with
  | nil => intro _ hmem _ _; simp at hmem
  | cons a as ih =>
    intro hnd hmem hfail hok
    rw [List.map_cons, List.nodup_cons] at hnd
    obtain ⟨hni, hnd'⟩ := hnd
    simp only [fetch_weather_data_over, List.flatMap_cons]
    by_cases han : a.name = failCity
    · have hblock : locWarnings a (fetch a.name)
          = ["Error fetching " ++ failCity ++ ": " ++ msg] := by
        rw [han, hfail, locWarnings, han]
      have hrest : (as.flatMap fun l => locWarnings l (fetch l.name)) = [] := by
        apply List.flatMap_eq_nil_iff.mpr
        intro l hl
        have hlne : l.name ≠ failCity := by
          intro he
          exact hni (by rw [han.symm] at he; exact he ▸ List.mem_map_of_mem Loc.name hl)
        obtain ⟨ts, tl, hsucc⟩ := hok l (List.mem_cons_of_mem a hl) hlne
        rw [hsucc, locWarnings]
      rw [hblock, hrest, List.append_nil]
    · obtain ⟨ts, tl, hsucc⟩ := hok a (List.mem_cons_self a as) han
      have hblock : locWarnings a (fetch a.name) = [] := by rw [hsucc, locWarnings]
      have hmem' : failCity ∈ as.map Loc.name := by
        rcases List.mem_cons.mp hmem with h | h
        · exact absurd h.symm han
        · exact h
      rw [hblock, List.nil_append]
      simpa [fetch_weather_data_over] using
        ih hnd' hmem' hfail (fun l hl => hok l (List.mem_cons_of_mem a hl))

lemma city_present_iff (fetch : String → FetchResult) (failCity msg : String)
    (locs : List Loc)
    (hfail : fetch failCity = .failure msg)
    (hok : ∀ l ∈ locs, l.name ≠ failCity →
      ∃ ts tl, fetch l.name = .success ts tl ∧ ts ≠ [] ∧ tl ≠ []) :
    ∀ c : String, (∃ s ∈ (fetch_weather_data_over locs fetch).1, s.City = c)
      ↔ (c ∈ locs.map Loc.name ∧ c ≠ failCity) := by
  intro c
  constructor
  · rintro ⟨s, hs, rfl⟩
    simp only [fetch_weather_data_over, List.mem_flatMap] at hs
    obtain ⟨l, hl, hsl⟩ := hs
    have hc := locSamples_City hsl
    rw [hc]
    refine ⟨List.mem_map_of_mem _ hl, ?_⟩
    intro he
    have hfl : fetch l.name = .failure msg := by rw [he, hfail]
    rw [hfl] at hsl
    simp [locSamples] at hsl
  · rintro ⟨hcmem, hcne⟩
    obtain ⟨l, hl, rfl⟩ := List.mem_map.mp hcmem
    obtain ⟨ts, tl, hsucc, hts, htl⟩ := hok l hl hcne
    obtain ⟨t0, ts', rfl⟩ := List.exists_cons_of_ne_nil hts
    obtain ⟨q0, tl', rfl⟩ := List.exists_cons_of_ne_nil htl
    refine ⟨⟨l.name, l.lat, l.lon, t0, q0⟩, ?_, rfl⟩
    simp only [fetch_weather_data_over, List.mem_flatMap]
    refine ⟨l, hl, ?_⟩
    rw [hsucc]
    simp only [locSamples, List.zip_cons_cons, List.map_cons]
    exact List.mem_cons_self _ _

/-- C5: if the fetch raises for exactly one of the 7 configured locations and
succeeds (with at least one zipped sample) for the rest, then exactly one
warning is emitted — naming the failed location — and the Dataset contains
records for exactly the other 6 cities; the loop itself is a total function,
so the retrieval is never aborted and never raises to the caller. -/
theorem C5_failure_isolation :
    ∀ (fetch : String → FetchResult) (failCity msg : String),
      failCity ∈ kyushu_capitals.map Loc.name →
      fetch failCity = .failure msg →
      (∀ l ∈ kyushu_capitals, l.name ≠ failCity →
        ∃ ts tl, fetch l.name = .success ts tl ∧ ts ≠ [] ∧ tl ≠ []) →
      (fetch_weather_data fetch).2 = ["Error fetching " ++ failCity ++ ": " ++ msg] ∧
      ∀ c : String, (∃ s ∈ (fetch_weather_data fetch).1, s.City = c)
        ↔ (c ∈ kyushu_capitals.map Loc.name ∧ c ≠ failCity) := by
  intro fetch failCity msg hmem hfail hok
  constructor
  · exact warnings_of_single_failure fetch failCity msg kyushu_capitals (by decide)
      hmem hfail
      (fun l hl hne => (hok l hl hne).imp fun ts h => h.imp fun tl h => h.1)
  · exact city_present_iff fetch failCity msg kyushu_capitals hfail hok

/-- Witness for C5: Saga's request fails with "boom", every other city returns
one sample; one warning names Saga, Fukuoka is present and Saga is not. -/
theorem C5_witness :
    (fetch_weather_data fun c => if c == "Saga" then .failure "boom"
        else .success [0] [10]).2 = ["Error fetching Saga: boom"] ∧
    ((∃ s ∈ (fetch_weather_data fun c => if c == "Saga" then .failure "boom"
        else .success [0] [10]).1, s.City = "Fukuoka") ↔
      ("Fukuoka" ∈ kyushu_capitals.map Loc.name ∧ "Fukuoka" ≠ "Saga")) ∧
    ((∃ s ∈ (fetch_weather_data fun c => if c == "Saga" then .failure "boom"
        else .success [0] [10]).1, s.City = "Saga") ↔
      ("Saga" ∈ kyushu_capitals.map Loc.name ∧ "Saga" ≠ "Saga")) := by
  have h := C5_failure_isolation
    (fun c => if c == "Saga" then .failure "boom" else .success [0] [10])
    "Saga" "boom" (by decide) rfl ?_
  · exact ⟨h.1, h.2 "Fukuoka", h.2 "Saga"⟩
  · intro l hl hne
    refine ⟨[0], [10], ?_, by decide, by decide⟩
    have : (l.name == "Saga") = false := beq_eq_false_iff_ne.mpr hne
    simp only [this, Bool.false_eq_true, if_false]

end StApp

namespace StApp

lemma block_mem_time {l : Loc} {ts : List ℕ} {tl : List ℚ} {s : Sample}
    (h : s ∈ locSamples l (.success ts tl)) : s.time ∈ ts := by
  simp only [locSamples, List.mem_map] at h
  obtain ⟨⟨t, q⟩, hp, rfl⟩ := h
  exact (List.of_mem_zip hp).1

lemma filter_time_block (l : Loc) :
    ∀ (ts : List ℕ) (tl : List ℚ) (t : ℕ), ts.Nodup → tl.length = ts.length →
      t ∈ ts →
      ∃ q : ℚ, (locSamples l (.success ts tl)).filter (fun s => s.time == t)
        = [⟨l.name, l.lat, l.lon, t, q⟩] := by
  intro ts
  induction ts with
  | nil => intro tl t _ _ ht; cases ht
  | cons t0 ts' ih =>
    intro tl t hnd hlen ht
    obtain ⟨q0, tl', rfl⟩ : ∃ a b, tl = a :: b := by
      cases tl with
      | nil => simp at hlen
      | cons a b => exact ⟨a, b, rfl⟩
    rw [List.nodup_cons] at hnd
    simp only [locSamples, List.zip_cons_cons, List.map_cons, List.filter_cons]
    rcases List.mem_cons.mp ht with rfl | ht'
    · have hrest : ((ts'.zip tl').map
          fun p => (⟨l.name, l.lat, l.lon, p.1, p.2⟩ : Sample)).filter
            (fun s => s.time == t) = [] := by
        apply List.filter_eq_nil_iff.mpr
        intro s hs hbeq
        rw [beq_iff_eq] at hbeq
        have hs' : s ∈ locSamples l (.success ts' tl') := by
          simpa [locSamples] using hs
        have hmem : s.time ∈ ts' := block_mem_time hs'
        rw [hbeq] at hmem
        exact hnd.1 hmem
      refine ⟨q0, ?_⟩
      simp only [beq_self_eq_true, if_true]
      rw [hrest]
    · have hne : ((⟨l.name, l.lat, l.lon, t0, q0⟩ : Sample).time == t) = false := by
        apply beq_eq_false_iff_ne.mpr
        intro he
        have he' : t0 = t := he
        exact hnd.1 (he' ▸ ht')
      rw [hne]
      simp only [Bool.false_eq_true, if_false]
      have hlen' : tl'.length = ts'.length := by simpa using hlen
      simpa [locSamples] using ih tl' t hnd.2 hlen' ht'

lemma filter_time_dataset (fetch : String → FetchResult) (times : List ℕ)
    (tempsOf : String → List ℚ) (t : ℕ) (hnd : times.Nodup) (ht : t ∈ times) :
    ∀ locs : List Loc,
      (∀ l ∈ locs, fetch l.name = .success times (tempsOf l.name)) →
      (∀ l ∈ locs, (tempsOf l.name).length = times.length) →
      ((fetch_weather_data_over locs fetch).1.filter fun s => s.time == t).map
          Sample.City
        = locs.map Loc.name := by
  intro locs
  induction locs with
  | nil => intro _ _; simp [fetch_weather_data_over]
  | cons a as ih =>
    intro hfetch hlen
    simp only [fetch_weather_data_over, List.flatMap_cons, List.filter_append,
      List.map_append, List.map_cons]
    obtain ⟨q, hq⟩ := filter_time_block a times (tempsOf a.name) t hnd
      (hlen a (List.mem_cons_self a as)) ht
    rw [hfetch a (List.mem_cons_self a as), hq]
    have hih := ih (fun l hl => hfetch l (List.mem_cons_of_mem a hl))
      (fun l hl => hlen l (List.mem_cons_of_mem a hl))
    simp only [fetch_weather_data_over] at hih
    rw [hih]
    rfl

lemma dataset_time_mem (fetch : String → FetchResult) (times : List ℕ)
    (tempsOf : String → List ℚ) (locs : List Loc)
    (hfetch : ∀ l ∈ locs, fetch l.name = .success times (tempsOf l.name)) :
    ∀ s ∈ (fetch_weather_data_over locs fetch).1, s.time ∈ times := by
  intro s hs
  simp only [fetch_weather_data_over, List.mem_flatMap] at hs
  obtain ⟨l, hl, hsl⟩ := hs
  rw [hfetch l hl] at hsl
  exact block_mem_time hsl

lemma flatten_filter_perm {α : Type} (key : α → ℕ) :
    ∀ ts : List ℕ, ts.Nodup → ∀ l : List α, (∀ x ∈ l, key x ∈ ts) →
      ((ts.map fun t => l.filter fun x => key x == t).flatten).Perm l := by
  intro ts
  induction ts with
  | nil =>
    intro _ l hl
    have hnil : l = [] := List.eq_nil_iff_forall_not_mem.mpr
      fun x hx => by simpa using hl x hx
    subst hnil
    simp
  | cons t ts' ih =>
    intro hnd l hl
    rw [List.nodup_cons] at hnd
    simp only [List.map_cons, List.flatten_cons]
    have hmap : ∀ t' ∈ ts', (l.filter fun x => key x == t')
        = ((l.filter fun x => !(key x == t)).filter fun x => key x == t') := by
      intro t' ht'
      rw [List.filter_filter]
      apply List.filter_congr
      intro x hx
      by_cases h : key x = t'
      · have hne2 : ¬ t' = t := fun he => hnd.1 (he ▸ ht')
        simp [h, hne2]
      · simp [h]
    have hrest : ((ts'.map fun t' => l.filter fun x => key x == t').flatten)
        = ((ts'.map fun t' =>
            (l.filter fun x => !(key x == t)).filter fun x => key x == t').flatten) := by
      congr 1
      exact List.map_congr_left hmap
    rw [hrest]
    have hsub : ∀ x ∈ (l.filter fun x => !(key x == t)), key x ∈ ts' := by
      intro x hx
      rw [List.mem_filter] at hx
      rcases List.mem_cons.mp (hl x hx.1) with h | h
      · exfalso
        have := hx.2
        rw [h] at this
        simp at this
      · exact h
    have hperm := ih hnd.2 _ hsub
    exact (hperm.append_left _).trans (List.filter_append_perm _ l)

/-- C6: for a Dataset built from a list of locations all answering with the
same duplicate-free time grid (and temperature arrays of matching length),
filtering at each grid timestamp returns exactly one record per location —
in location order, hence exactly N records — and the concatenation of the
per-timestamp filters is a permutation of the whole Dataset (reconstruction
up to order). -/
theorem C6_round_trip :
    ∀ (locs : List Loc) (fetch : String → FetchResult) (times : List ℕ)
      (tempsOf : String → List ℚ),
      times.Nodup →
      (∀ l ∈ locs, fetch l.name = .success times (tempsOf l.name)) →
      (∀ l ∈ locs, (tempsOf l.name).length = times.length) →
      (∀ t ∈ times,
        ((fetch_weather_data_over locs fetch).1.filter fun s => s.time == t).map
            Sample.City = locs.map Loc.name ∧
        ((fetch_weather_data_over locs fetch).1.filter fun s => s.time == t).length
            = locs.length) ∧
      ((times.map fun t => (fetch_weather_data_over locs fetch).1.filter
          fun s => s.time == t).flatten).Perm (fetch_weather_data_over locs fetch).1 := by
  intro locs fetch times tempsOf hnd hfetch hlen
  constructor
  · intro t ht
    have hmap := filter_time_dataset fetch times tempsOf t hnd ht locs hfetch hlen
    refine ⟨hmap, ?_⟩
    have hlength := congrArg List.length hmap
    simpa [List.length_map] using hlength
  · exact flatten_filter_perm Sample.time times hnd _
      (dataset_time_mem fetch times tempsOf locs hfetch)

/-- Witness for C6: all 7 capitals answer with the grid `[0, 1]` and
temperatures `[10, 11]`; filtering at time 0 gives 7 records and the two
filters together are a permutation of the 14-record Dataset. -/
theorem C6_witness :
    ((fetch_weather_data_over kyushu_capitals
        (fun _ => .success [0, 1] [10, 11])).1.filter
      fun s => s.time == 0).length = kyushu_capitals.length ∧
    ((([0, 1] : List ℕ).map fun t =>
        (fetch_weather_data_over kyushu_capitals
          (fun _ => .success [0, 1] [10, 11])).1.filter
            fun s => s.time == t).flatten).Perm
      (fetch_weather_data_over kyushu_capitals
        (fun _ => .success [0, 1] [10, 11])).1 := by
  have h := C6_round_trip kyushu_capitals (fun _ => .success [0, 1] [10, 11])
    [0, 1] (fun _ => [10, 11]) (by decide) (fun _ _ => rfl) (fun _ _ => rfl)
  exact ⟨(h.1 0 (by decide)).2, h.2⟩

end StApp
